import Mathlib

/-!
Verification of the kids_game multiplayer core (server session registry,
broadcast loop, signaling relay, client network adapter, client remote-state
reconciler) against its natural-language specification.

The server keeps players in a JS `Map<string, PlayerSession>`; we embed it as
an association list with JS-Map semantics (`set` replaces in place or appends,
`delete` removes, `get` finds the first matching key).  Numeric player data
(positions, yaw) is embedded as `ℚ`; the client-side interpolation math, which
involves `Math.PI`, is embedded over `ℝ` in a later section.  Timestamps
(`Date.now()`) and the random palette index (`Math.random()`) are passed in as
explicit arguments.
-/

namespace KidsGame

/-! ## JS `Map` embedding: association lists keyed by `String` -/

/-- JS `Map.get`: the value at the first matching key, if any. -/
def mapGet {α : Type} (m : List (String × α)) (k : String) : Option α :=
  match m with
  | [] => none
  | (k', v) :: rest => if k' = k then some v else mapGet rest k

/-- JS `Map.set`: replace the entry in place if the key is present,
otherwise append a new entry at the end (JS `Map` preserves insertion
order and keeps an overwritten key at its old position). -/
def mapSet {α : Type} (m : List (String × α)) (k : String) (v : α) : List (String × α) :=
  match m with
  | [] => [(k, v)]
  | (k', v') :: rest => if k' = k then (k, v) :: rest else (k', v') :: mapSet rest k v

/-- JS `Map.delete`: remove the entry with the given key. -/
def mapDelete {α : Type} (m : List (String × α)) (k : String) : List (String × α) :=
  match m with
  | [] => []
  | (k', v) :: rest => if k' = k then mapDelete rest k else (k', v) :: mapDelete rest k

/-- In-place mutation of the record found by `Map.get` (the JS code does
`const p = map.get(k); if (p) { p.field = ...; }`). -/
def mapUpdate {α : Type} (m : List (String × α)) (k : String) (f : α → α) : List (String × α) :=
  match m with
  | [] => []
  | (k', v) :: rest => if k' = k then (k', f v) :: mapUpdate rest k f else (k', v) :: mapUpdate rest k f

/-! ## Shared data model (`packages/shared/src/messages.ts`, `types.ts`) -/

/-- Movement state enumeration `'idle' | 'walking' | 'running' | 'swinging'`. -/
inductive PlayerState where
  | idle
  | walking
  | running
  | swinging
deriving DecidableEq, Repr

/-- Shared `Vector3 { x, y, z }` with rational coordinates. -/
structure Vector3 where
  x : ℚ
  y : ℚ
  z : ℚ
deriving DecidableEq, Repr

/-- The server-side per-player record (interface `PlayerSession` in
`GameState.ts`; named `PlayerRec` here to avoid a clash with the
`PlayerSession` connection handler class). -/
structure PlayerRec where
  id : String
  name : String
  color : String
  x : ℚ
  y : ℚ
  z : ℚ
  rotationY : ℚ
  state : PlayerState
  swingAttachPoint : Option Vector3
  lastUpdate : ℕ
deriving DecidableEq, Repr

/-- Shared `PlayerData` entry carried by `state` broadcasts. -/
structure PlayerData where
  id : String
  name : String
  color : String
  x : ℚ
  y : ℚ
  z : ℚ
  rotationY : ℚ
  state : PlayerState
  swingAttachPoint : Option Vector3
deriving DecidableEq, Repr

/-- Summary `{ id, name, color }` returned by `GameState.getPlayerList`. -/
structure PlayerSummary where
  id : String
  name : String
  color : String
deriving DecidableEq, Repr

/-! ## `GameState` (server session registry, `GameState.ts`) -/

structure GameState where
  players : List (String × PlayerRec)
deriving DecidableEq, Repr

def GameState.empty : GameState := { players := [] }

def MAX_PLAYERS : ℕ := 5

/-- `canJoin(): boolean` — `this.players.size < this.MAX_PLAYERS`. -/
def GameState.canJoin (g : GameState) : Bool :=
  g.players.length < MAX_PLAYERS

/-- The fixed ten-color palette in `generateRandomColor`. -/
def colorPalette : List String :=
  ["#ff4444", "#44ff44", "#4444ff", "#ffff44", "#ff44ff",
   "#44ffff", "#ff8800", "#8844ff", "#ff4488", "#44ff88"]

/-- `generateRandomColor()` — `colors[Math.floor(Math.random() * colors.length)]`;
the random draw is passed in as the index `rand`. -/
def generateRandomColor (rand : ℕ) : String :=
  colorPalette.getD (rand % colorPalette.length) "#ff4444"

/-- `addPlayer(id, name)` — builds a fresh record at the default spawn
`(0, 1, 0)`, yaw `0`, state `idle`, no attach point, a palette color, and
installs it with `this.players.set(id, player)`. -/
def GameState.addPlayer (g : GameState) (rand : ℕ) (id name : String) (now : ℕ) :
    GameState × PlayerRec :=
  let player : PlayerRec :=
    { id := id, name := name, color := generateRandomColor rand,
      x := 0, y := 1, z := 0, rotationY := 0, state := PlayerState.idle,
      swingAttachPoint := none, lastUpdate := now }
  ({ players := mapSet g.players id player }, player)

/-- `removePlayer(id)` — `this.players.delete(id)`. -/
def GameState.removePlayer (g : GameState) (id : String) : GameState :=
  { players := mapDelete g.players id }

/-- `getPlayer(id)` — `this.players.get(id)`. -/
def GameState.getPlayer (g : GameState) (id : String) : Option PlayerRec :=
  mapGet g.players id

/-- `getPlayerList()` — `{ id, name, color }` summaries of all records. -/
def GameState.getPlayerList (g : GameState) : List PlayerSummary :=
  g.players.map (fun p => { id := p.2.id, name := p.2.name, color := p.2.color })

/-- One character of `[0-9a-fA-F]`. -/
def isHexDigitChar (c : Char) : Bool :=
  ('0' ≤ c && c ≤ '9') || ('a' ≤ c && c ≤ 'f') || ('A' ≤ c && c ≤ 'F')

/-- The anchored regex `/^#[0-9a-fA-F]{6}$/` from `updateSettings`: a first
character `#` followed by exactly six hex digits and nothing else. -/
def isValidHexColor (s : String) : Bool :=
  match s.data with
  | [] => false
  | c :: rest => c == '#' && rest.length == 6 && rest.all isHexDigitChar

/-- The field updates `updateSettings` performs on an existing record:
accept the name when non-empty and at most 20 characters, accept the color
when it matches the hex pattern, each independently, then refresh
`lastUpdate`. -/
def applySettings (name color : Option String) (now : ℕ) (p : PlayerRec) : PlayerRec :=
  let p1 := match name with
    | some n => if 0 < n.length ∧ n.length ≤ 20 then { p with name := n } else p
    | none => p
  let p2 := match color with
    | some c => if isValidHexColor c then { p1 with color := c } else p1
    | none => p1
  { p2 with lastUpdate := now }

/-- `updateSettings(id, name?, color?)` — apply `applySettings` to the
record when it exists; no-op when the id is absent. -/
def GameState.updateSettings (g : GameState) (id : String)
    (name color : Option String) (now : ℕ) : GameState :=
  match mapGet g.players id with
  | none => g
  | some _ =>
    { players := mapUpdate g.players id (applySettings name color now) }

/-- `updatePosition(id, x, y, z, rotationY, state)` — overwrite the transform
and timestamp of an existing record; no-op when the id is absent. -/
def GameState.updatePosition (g : GameState) (id : String)
    (x y z rotationY : ℚ) (state : PlayerState) (now : ℕ) : GameState :=
  match mapGet g.players id with
  | none => g
  | some _ =>
    { players := mapUpdate g.players id (fun p =>
        { p with x := x, y := y, z := z, rotationY := rotationY,
                 state := state, lastUpdate := now }) }

/-- `updateSwing(id, active, attachPoint?)` — state becomes `swinging` with
the given (possibly absent) attach point when active, `idle` with no attach
point when inactive; no-op when the id is absent. -/
def GameState.updateSwing (g : GameState) (id : String)
    (active : Bool) (attachPoint : Option Vector3) (now : ℕ) : GameState :=
  match mapGet g.players id with
  | none => g
  | some _ =>
    { players := mapUpdate g.players id (fun p =>
        { p with state := if active then PlayerState.swinging else PlayerState.idle,
                 swingAttachPoint := if active then attachPoint else none,
                 lastUpdate := now }) }

/-- `getAllPlayerData()` — serialize every record to a `PlayerData` entry. -/
def GameState.getAllPlayerData (g : GameState) : List PlayerData :=
  g.players.map (fun p =>
    { id := p.2.id, name := p.2.name, color := p.2.color,
      x := p.2.x, y := p.2.y, z := p.2.z, rotationY := p.2.rotationY,
      state := p.2.state, swingAttachPoint := p.2.swingAttachPoint })

/-- `get playerCount()` — `this.players.size`. -/
def GameState.playerCount (g : GameState) : ℕ :=
  g.players.length

/-! ## Wire messages (`packages/shared/src/messages.ts`) -/

/-- Client→server messages.  The WebRTC payloads (`RTCSessionDescriptionInit`,
`RTCIceCandidateInit`) are opaque to the server and embedded as strings. -/
inductive ClientMessage where
  | join (name : String)
  | position (x y z rotationY : ℚ) (state : PlayerState)
  | swing (active : Bool) (attachPoint : Option Vector3)
  | settings (name : Option String) (color : Option String)
  | rtc_offer (targetId : String) (offer : String)
  | rtc_answer (targetId : String) (answer : String)
  | rtc_ice (targetId : String) (candidate : String)
deriving DecidableEq, Repr

/-- Server→client messages.  The relayed WebRTC messages are re-tagged with
the sender identity (`fromId`) instead of `targetId`. -/
inductive ServerMessage where
  | welcome (yourId : String) (players : List PlayerSummary)
  | player_joined (id : String) (name : String)
  | player_left (id : String)
  | state (players : List PlayerData)
  | server_full
  | rtc_offer_relay (fromId : String) (offer : String)
  | rtc_answer_relay (fromId : String) (answer : String)
  | rtc_ice_relay (fromId : String) (candidate : String)
deriving DecidableEq, Repr

/-! ## Player sessions and the server event loop
(`PlayerSession.ts`, `packages/server/src/index.ts`) -/

/-- The per-connection state a `PlayerSession` object carries: its `joined`
flag, whether its WebSocket is still open (`ws.readyState === OPEN`), and the
`name` field (defaulted to `"Player"`). -/
structure SessionInfo where
  joined : Bool
  wsOpen : Bool
  name : String
deriving DecidableEq, Repr

/-- `PlayerSession.send` — a best-effort write: delivers the message only if
the session's WebSocket is open, otherwise it is skipped. -/
def sessionSend (sid : String) (info : SessionInfo) (m : ServerMessage) :
    List (String × ServerMessage) :=
  if info.wsOpen then [(sid, m)] else []

/-- The `broadcast` helper in `index.ts`: sends to every joined session whose
id differs from `excludeId` (delivery still subject to the open-socket check
inside `send`). -/
def broadcastExcept (sessions : List (String × SessionInfo)) (m : ServerMessage)
    (excludeId : String) : List (String × ServerMessage) :=
  match sessions with
  | [] => []
  | (sid, info) :: rest =>
    (if sid ≠ excludeId ∧ info.joined = true then sessionSend sid info m else []) ++
      broadcastExcept rest m excludeId

/-- The whole server state: the registry plus the `sessions` map. -/
structure ServerState where
  gameState : GameState
  sessions : List (String × SessionInfo)
deriving DecidableEq, Repr

def ServerState.start : ServerState :=
  { gameState := GameState.empty, sessions := [] }

/-- `PlayerSession.handleJoin` — early-return if already joined; if the
registry cannot accept, send `server_full` and close the socket; otherwise
default the name, add the registry record, mark joined, send `welcome` with
the other players' summaries, and broadcast `player_joined` to the others. -/
def handleJoin (s : ServerState) (sid : String) (info : SessionInfo)
    (name : String) (rand now : ℕ) : ServerState × List (String × ServerMessage) :=
  if info.joined = true then (s, [])
  else if s.gameState.canJoin = false then
    ({ s with sessions := mapSet s.sessions sid { info with wsOpen := false } },
     sessionSend sid info ServerMessage.server_full)
  else
    let nm := if name = "" then "Player " ++ sid.take 4 else name
    let g' := (s.gameState.addPlayer rand sid nm now).1
    let joinedInfo : SessionInfo := { info with joined := true, name := nm }
    let sessions' := mapSet s.sessions sid joinedInfo
    let welcomeMsg := ServerMessage.welcome sid
      ((g'.getPlayerList).filter (fun p => p.id != sid))
    let out := sessionSend sid joinedInfo welcomeMsg ++
      broadcastExcept sessions' (ServerMessage.player_joined sid nm) sid
    ({ gameState := g', sessions := sessions' }, out)

/-- `PlayerSession.handleMessage` — `join` is always dispatched; `position`
and `swing` update the registry only while joined; other message types are
not handled by this session version and are dropped. -/
def handleClientMessage (s : ServerState) (sid : String) (info : SessionInfo)
    (m : ClientMessage) (rand now : ℕ) : ServerState × List (String × ServerMessage) :=
  match m with
  | ClientMessage.join name => handleJoin s sid info name rand now
  | ClientMessage.position x y z rotationY st =>
    (if info.joined = true then
       { s with gameState := s.gameState.updatePosition sid x y z rotationY st now }
     else s, [])
  | ClientMessage.swing active attachPoint =>
    (if info.joined = true then
       { s with gameState := s.gameState.updateSwing sid active attachPoint now }
     else s, [])
  | _ => (s, [])

/-- Events driving the single-threaded server loop: a new WebSocket
connection, an inbound message on a connection, and a connection close.
`rand` stands for the `Math.random()` draw and `now` for `Date.now()`. -/
inductive ServerEvent where
  | connect (sid : String)
  | message (sid : String) (m : ClientMessage) (rand now : ℕ)
  | close (sid : String)
deriving DecidableEq, Repr

/-- One event processed to completion (the `wss.on('connection')` handler,
the session's `message` handler, and `handleDisconnect` + `onDisconnect`). -/
def ServerState.step (s : ServerState) (e : ServerEvent) :
    ServerState × List (String × ServerMessage) :=
  match e with
  | ServerEvent.connect sid =>
    let fresh : SessionInfo := { joined := false, wsOpen := true, name := "Player" }
    ({ s with sessions := mapSet s.sessions sid fresh }, [])
  | ServerEvent.message sid m rand now =>
    match mapGet s.sessions sid with
    | none => (s, [])
    | some info => handleClientMessage s sid info m rand now
  | ServerEvent.close sid =>
    match mapGet s.sessions sid with
    | none => (s, [])
    | some info =>
      if info.joined = true then
        ({ gameState := s.gameState.removePlayer sid,
           sessions := mapDelete s.sessions sid },
         broadcastExcept s.sessions (ServerMessage.player_left sid) sid)
      else
        ({ s with sessions := mapDelete s.sessions sid }, [])

/-- Run a sequence of events from the empty server. -/
def ServerState.run (es : List ServerEvent) : ServerState :=
  es.foldl (fun s e => (s.step e).1) ServerState.start

/-- The broadcast interval body (`index.ts` lines 53–66): skip if the
sessions map is empty, otherwise build one `state` message from a single
registry snapshot and send it to every joined session. -/
def broadcastTickSends (sessions : List (String × SessionInfo)) (m : ServerMessage) :
    List (String × ServerMessage) :=
  match sessions with
  | [] => []
  | (sid, info) :: rest =>
    (if info.joined = true then sessionSend sid info m else []) ++ broadcastTickSends rest m

def broadcastTick (sessions : List (String × SessionInfo)) (g : GameState) :
    List (String × ServerMessage) :=
  if sessions.length = 0 then []
  else broadcastTickSends sessions (ServerMessage.state g.getAllPlayerData)

/-- A concrete event trace filling the server to capacity: five connections
`"a"`–`"e"` that all complete the join handshake. -/
def fullServerTrace : List ServerEvent :=
  [ServerEvent.connect "a", ServerEvent.connect "b", ServerEvent.connect "c",
   ServerEvent.connect "d", ServerEvent.connect "e",
   ServerEvent.message "a" (ClientMessage.join "A") 0 0,
   ServerEvent.message "b" (ClientMessage.join "B") 1 0,
   ServerEvent.message "c" (ClientMessage.join "C") 2 0,
   ServerEvent.message "d" (ClientMessage.join "D") 3 0,
   ServerEvent.message "e" (ClientMessage.join "E") 4 0]

/-- The capacity trace followed by a sixth connection `"f"` that has not
joined yet. -/
def fullServerTraceF : List ServerEvent :=
  fullServerTrace ++ [ServerEvent.connect "f"]

/-! ## Signaling relay (spec §4.4)

Modelled from the spec: the server-side relay cases of
`PlayerSession.handleMessage` for `rtc_offer`, `rtc_answer` and `rtc_ice` are
not among the source files (only the shared message type declarations in
`messages.ts` and the client-side callers are present).  Per the spec, the
relay forwards the opaque payload to the named target session when that
target is currently joined, re-tagged with the sender's identity, and
silently drops the message otherwise. -/

/-- Modelled from the spec: the RTC signaling relay of
`PlayerSession.handleMessage` (missing from the sources); it delivers the
same kind of message with the same opaque payload to the target session when
that target is currently joined, with `fromId` set to the sender, and
produces no output at all otherwise. -/
def relaySignaling (sessions : List (String × SessionInfo)) (senderId : String)
    (m : ClientMessage) : List (String × ServerMessage) :=
  match m with
  | ClientMessage.rtc_offer targetId offer =>
    match mapGet sessions targetId with
    | some info =>
      if info.joined = true then
        sessionSend targetId info (ServerMessage.rtc_offer_relay senderId offer)
      else []
    | none => []
  | ClientMessage.rtc_answer targetId answer =>
    match mapGet sessions targetId with
    | some info =>
      if info.joined = true then
        sessionSend targetId info (ServerMessage.rtc_answer_relay senderId answer)
      else []
    | none => []
  | ClientMessage.rtc_ice targetId candidate =>
    match mapGet sessions targetId with
    | some info =>
      if info.joined = true then
        sessionSend targetId info (ServerMessage.rtc_ice_relay senderId candidate)
      else []
    | none => []
  | _ => []

/-! ## Client network adapter (`Connection.ts`, src/unnamed/part_001) -/

inductive ConnectionStatus where
  | disconnected
  | connecting
  | connected
  | full
deriving DecidableEq, Repr

/-- WebSocket `readyState` as seen by the client. -/
inductive WsReadyState where
  | connecting
  | opened
  | closed
deriving DecidableEq, Repr

/-- The `Connection` class fields that matter for the lifecycle: whether
`this.ws` is non-null and its ready state, the status, whether a reconnect
timer is pending (`this.reconnectTimer !== null`), and `this.myId`. -/
structure Connection where
  wsExists : Bool
  wsReady : WsReadyState
  status : ConnectionStatus
  reconnectTimer : Bool
  myId : Option String
deriving DecidableEq, Repr

def Connection.start : Connection :=
  { wsExists := false, wsReady := WsReadyState.closed,
    status := ConnectionStatus.disconnected, reconnectTimer := false, myId := none }

def Connection.setStatus (c : Connection) (st : ConnectionStatus) : Connection :=
  { c with status := st }

/-- `connect(playerName)` — no-op when the socket is already open, otherwise
set status to connecting and create a fresh WebSocket. -/
def Connection.connect (c : Connection) : Connection :=
  if c.wsExists = true ∧ c.wsReady = WsReadyState.opened then c
  else { (c.setStatus ConnectionStatus.connecting) with
           wsExists := true, wsReady := WsReadyState.connecting }

/-- The `ws.onopen` handler — the socket becomes open (it also sends the
`join` message, which does not change the adapter's state). -/
def Connection.onOpen (c : Connection) : Connection :=
  { c with wsReady := WsReadyState.opened }

/-- `scheduleReconnect` — arm the 3-second one-shot retry timer unless one
is already pending. -/
def Connection.scheduleReconnect (c : Connection) : Connection :=
  if c.reconnectTimer = true then c else { c with reconnectTimer := true }

/-- The `ws.onclose` handler — status becomes disconnected, `myId` is
cleared, and a reconnect is scheduled. -/
def Connection.onClose (c : Connection) : Connection :=
  ({ (c.setStatus ConnectionStatus.disconnected) with myId := none }).scheduleReconnect

/-- `Connection.handleMessage` — `welcome` records the identity and moves to
connected; `server_full` moves to full; the remaining message types only
invoke callbacks and leave the adapter state unchanged. -/
def Connection.handleServerMessage (c : Connection) (m : ServerMessage) : Connection :=
  match m with
  | ServerMessage.welcome yourId _ =>
    { (c.setStatus ConnectionStatus.connected) with myId := some yourId }
  | ServerMessage.server_full => c.setStatus ConnectionStatus.full
  | _ => c

/-- `disconnect()` — cancel any pending reconnect timer, close and drop the
socket, and reset to disconnected. -/
def Connection.disconnect (c : Connection) : Connection :=
  let c1 : Connection :=
    { c with reconnectTimer := false, wsExists := false, wsReady := WsReadyState.closed }
  { c1.setStatus ConnectionStatus.disconnected with myId := none }

end KidsGame

namespace KidsGame

/-! ## Client remote-state reconciler (`RemotePlayer.ts`, src/unnamed/part_005)

The interpolation math runs on IEEE doubles in the source; it is embedded
here over the real numbers, with `Math.PI` as `Real.pi`. -/

noncomputable section

/-- `private readonly LERP_SPEED = 10`. -/
def LERP_SPEED : ℝ := 10

/-- A three.js `Vector3` with real coordinates. -/
structure Vec3R where
  x : ℝ
  y : ℝ
  z : ℝ

/-- three.js `Vector3.lerp(v, alpha)`: each coordinate moves to
`this + (v - this) * alpha`. -/
def lerpVec (p v : Vec3R) (alpha : ℝ) : Vec3R :=
  { x := p.x + (v.x - p.x) * alpha,
    y := p.y + (v.y - p.y) * alpha,
    z := p.z + (v.z - p.z) * alpha }

/-- The clamped interpolation factor `Math.min(1, this.LERP_SPEED * deltaTime)`
used by `RemotePlayer.update`. -/
def lerpFactor (deltaTime : ℝ) : ℝ :=
  min 1 (LERP_SPEED * deltaTime)

/-- The inline wraparound in `RemotePlayer.update`:
`if (deltaY > Math.PI) deltaY -= Math.PI * 2; if (deltaY < -Math.PI) deltaY += Math.PI * 2;`. -/
def wrapDeltaY (d : ℝ) : ℝ :=
  if d > Real.pi then d - Real.pi * 2
  else if d < -Real.pi then d + Real.pi * 2
  else d

/-- The position half of `RemotePlayer.update`:
`this.mesh.position.lerp(this.targetPosition, Math.min(1, this.LERP_SPEED * deltaTime))`. -/
def RemotePlayer.updateMeshPosition (meshPosition targetPosition : Vec3R)
    (deltaTime : ℝ) : Vec3R :=
  lerpVec meshPosition targetPosition (lerpFactor deltaTime)

/-- The yaw half of `RemotePlayer.update`: wrap the difference to the target,
then `this.mesh.rotation.y += deltaY * Math.min(1, this.LERP_SPEED * deltaTime)`. -/
def RemotePlayer.updateRotationY (currentY targetRotationY deltaTime : ℝ) : ℝ :=
  currentY + wrapDeltaY (targetRotationY - currentY) * lerpFactor deltaTime

/-- The spec's normalization of an angle difference into the half-open
interval `(-pi, pi]` (stated for differences of angles in `[-pi, pi]`, i.e.
inputs in `[-2 pi, 2 pi]`).  This is the claim's wording, to be compared
with the code's `wrapDeltaY`. -/
def specWrapToIocPi (d : ℝ) : ℝ :=
  if d > Real.pi then d - Real.pi * 2
  else if d ≤ -Real.pi then d + Real.pi * 2
  else d

end

/-! ## Association-list lemmas -/

theorem mapGet_mapSet_self {α : Type} (m : List (String × α)) (k : String) (v : α) :
    mapGet (mapSet m k v) k = some v := by
  induction m with
  | nil => simp [mapGet, mapSet]
  | cons hd tl ih =>
    obtain ⟨k', v'⟩ := hd
    by_cases h : k' = k
    · simp [mapGet, mapSet, h]
    · simp [mapGet, mapSet, h, ih]

theorem mapGet_mapSet_ne {α : Type} (m : List (String × α)) (k k' : String) (v : α)
    (h : k' ≠ k) : mapGet (mapSet m k v) k' = mapGet m k' := by
  have h' : ¬ k = k' := fun hk => h hk.symm
  induction m with
  | nil => simp [mapGet, mapSet, h']
  | cons hd tl ih =>
    obtain ⟨k'', v''⟩ := hd
    by_cases hk : k'' = k
    · subst hk
      simp [mapGet, mapSet, h']
    · by_cases hk' : k'' = k'
      · simp [mapGet, mapSet, hk, hk', h, h']
      · simp [mapGet, mapSet, hk, hk', ih]

theorem length_mapSet_le {α : Type} (m : List (String × α)) (k : String) (v : α) :
    (mapSet m k v).length ≤ m.length + 1 := by
  induction m with
  | nil => simp [mapSet]
  | cons hd tl ih =>
    obtain ⟨k', v'⟩ := hd
    by_cases h : k' = k
    · simp [mapSet, h]
    · simpa [mapSet, h] using Nat.succ_le_succ ih

theorem length_mapDelete_le {α : Type} (m : List (String × α)) (k : String) :
    (mapDelete m k).length ≤ m.length := by
  induction m with
  | nil => simp [mapDelete]
  | cons hd tl ih =>
    obtain ⟨k', v'⟩ := hd
    by_cases h : k' = k
    · simp only [mapDelete, if_pos h]
      exact le_trans ih (Nat.le_succ _)
    · simpa [mapDelete, h] using Nat.succ_le_succ ih

theorem length_mapUpdate {α : Type} (m : List (String × α)) (k : String) (f : α → α) :
    (mapUpdate m k f).length = m.length := by
  induction m with
  | nil => simp [mapUpdate]
  | cons hd tl ih =>
    obtain ⟨k', v'⟩ := hd
    by_cases h : k' = k <;> simp [mapUpdate, h, ih]

theorem mapGet_mapUpdate_self {α : Type} (m : List (String × α)) (k : String) (f : α → α) :
    mapGet (mapUpdate m k f) k = (mapGet m k).map f := by
  induction m with
  | nil => simp [mapGet, mapUpdate]
  | cons hd tl ih =>
    obtain ⟨k', v'⟩ := hd
    by_cases h : k' = k
    · simp [mapGet, mapUpdate, h]
    · simp [mapGet, mapUpdate, h, ih]

theorem mapGet_mapUpdate_ne {α : Type} (m : List (String × α)) (k k' : String) (f : α → α)
    (h : k' ≠ k) : mapGet (mapUpdate m k f) k' = mapGet m k' := by
  have h' : ¬ k = k' := fun hk => h hk.symm
  induction m with
  | nil => simp [mapUpdate]
  | cons hd tl ih =>
    obtain ⟨k'', v''⟩ := hd
    by_cases hk : k'' = k
    · subst hk
      simp [mapGet, mapUpdate, h', ih]
    · by_cases hk' : k'' = k'
      · simp [mapGet, mapUpdate, hk, hk', h, h']
      · simp [mapGet, mapUpdate, hk, hk', ih]

/-! ## Helper lemmas about the registry operations -/

/-- The hex-color test accepts exactly the strings made of a leading `#`
followed by six hex digits. -/
theorem isValidHexColor_iff (s : String) :
    isValidHexColor s = true ↔
      s.data.length = 7 ∧ s.data.head? = some '#' ∧
        ∀ c ∈ s.data.tail, isHexDigitChar c = true := by
  cases hd : s.data with
  | nil => simp [isValidHexColor, hd]
  | cons c rest =>
    simp only [isValidHexColor, hd, Bool.and_eq_true, beq_iff_eq, List.all_eq_true,
      List.length_cons, List.head?_cons, List.tail_cons, Option.some.injEq]
    constructor
    · rintro ⟨⟨hc, hlen⟩, hall⟩
      exact ⟨by omega, hc, hall⟩
    · rintro ⟨hlen, hc, hall⟩
      exact ⟨⟨hc, by omega⟩, hall⟩

/-- A palette color is always drawn from the fixed palette. -/
theorem generateRandomColor_mem (rand : ℕ) : generateRandomColor rand ∈ colorPalette := by
  have h : rand % colorPalette.length < colorPalette.length :=
    Nat.mod_lt _ (by decide)
  rw [generateRandomColor, List.getD_eq_getElem _ _ h]
  exact List.getElem_mem _

/-! ## Claim theorems -/

/-- C4: for every identity absent from the registry, `updatePosition` and
`updateSwing` leave the whole registry unchanged for all argument values.
(Both are total Lean functions, so no exception can be raised.) -/
theorem C4_absent_identity_noop (g : GameState) (id : String)
    (x y z rotationY : ℚ) (st : PlayerState) (active : Bool)
    (ap : Option Vector3) (now : ℕ)
    (h : mapGet g.players id = none) :
    g.updatePosition id x y z rotationY st now = g ∧
    g.updateSwing id active ap now = g := by
  constructor
  · simp [GameState.updatePosition, h]
  · simp [GameState.updateSwing, h]

/-- Witness for C4: the empty registry, identity `"ghost"`. -/
theorem C4_absent_identity_noop_witness :
    mapGet (GameState.empty.players) "ghost" = none ∧
    (GameState.empty.updatePosition "ghost" 1 2 3 (1/2) PlayerState.running 7 =
        GameState.empty ∧
     GameState.empty.updateSwing "ghost" true (some ⟨4, 5, 6⟩) 7 = GameState.empty) :=
  ⟨rfl, C4_absent_identity_noop GameState.empty "ghost" 1 2 3 (1/2) PlayerState.running
    true (some ⟨4, 5, 6⟩) 7 rfl⟩

/-- C3: on a record present in the registry, `updateSettings` applies the
name only when it is non-empty and within the 20-character maximum, applies
the color only when it is `#` followed by exactly six hex digits, each field
independently, leaving an omitted or invalid field at its previous value,
and leaving all other fields and all other records untouched. -/
theorem C3_updateSettings_validation (g : GameState) (id : String) (p : PlayerRec)
    (name color : Option String) (now : ℕ)
    (h : mapGet g.players id = some p) :
    ∃ q : PlayerRec,
      mapGet ((g.updateSettings id name color now).players) id = some q ∧
      (∀ n, name = some n → 0 < n.length → n.length ≤ 20 → q.name = n) ∧
      (∀ n, name = some n → ¬(0 < n.length ∧ n.length ≤ 20) → q.name = p.name) ∧
      (name = none → q.name = p.name) ∧
      (∀ c, color = some c → isValidHexColor c = true → q.color = c) ∧
      (∀ c, color = some c → isValidHexColor c = false → q.color = p.color) ∧
      (color = none → q.color = p.color) ∧
      q.x = p.x ∧ q.y = p.y ∧ q.z = p.z ∧ q.rotationY = p.rotationY ∧
      q.state = p.state ∧ q.swingAttachPoint = p.swingAttachPoint ∧
      (∀ id', id' ≠ id →
        mapGet ((g.updateSettings id name color now).players) id' =
          mapGet g.players id') := by
  refine ⟨applySettings name color now p, ?_, ?_, ?_, ?_, ?_, ?_, ?_, ?_, ?_, ?_, ?_,
    ?_, ?_, ?_⟩
  · simp [GameState.updateSettings, h, mapGet_mapUpdate_self]
  · rintro n rfl h1 h2
    cases color <;> simp [applySettings, h1, h2] <;> split <;> rfl
  · rintro n rfl hno
    cases color <;> simp [applySettings, hno] <;> split <;> rfl
  · rintro rfl
    cases color <;> simp [applySettings] <;> split <;> rfl
  · rintro c rfl hv
    cases name <;> simp [applySettings, hv] <;> split <;> rfl
  · rintro c rfl hv
    cases name <;> simp [applySettings, hv] <;> split <;> rfl
  · rintro rfl
    cases name <;> simp [applySettings] <;> split <;> rfl
  · cases name <;> cases color <;> simp [applySettings] <;> split_ifs <;> rfl
  · cases name <;> cases color <;> simp [applySettings] <;> split_ifs <;> rfl
  · cases name <;> cases color <;> simp [applySettings] <;> split_ifs <;> rfl
  · cases name <;> cases color <;> simp [applySettings] <;> split_ifs <;> rfl
  · cases name <;> cases color <;> simp [applySettings] <;> split_ifs <;> rfl
  · cases name <;> cases color <;> simp [applySettings] <;> split_ifs <;> rfl
  · intro id' hne
    simp [GameState.updateSettings, h, mapGet_mapUpdate_ne _ _ _ _ hne]

/-- Witness for C3: the spec's own example — a record with color
`"#123abc"`, then `updateSettings` with name `"Bob"` and color
`"not-a-color"`; the name becomes `"Bob"` and the color stays `"#123abc"`. -/
theorem C3_updateSettings_validation_witness :
    mapGet (((GameState.empty.addPlayer 0 "a" "Anna" 0).1.updateSettings "a" none
        (some "#123abc") 1).players) "a" =
      some { id := "a", name := "Anna", color := "#123abc", x := 0, y := 1, z := 0,
             rotationY := 0, state := PlayerState.idle, swingAttachPoint := none,
             lastUpdate := 1 } ∧
    ∃ q : PlayerRec,
      mapGet ((((GameState.empty.addPlayer 0 "a" "Anna" 0).1.updateSettings "a" none
          (some "#123abc") 1).updateSettings "a" (some "Bob") (some "not-a-color")
          2).players) "a" = some q ∧
      q.name = "Bob" ∧ q.color = "#123abc" := by
  have h0 : mapGet (((GameState.empty.addPlayer 0 "a" "Anna" 0).1.updateSettings "a" none
      (some "#123abc") 1).players) "a" =
        some { id := "a", name := "Anna", color := "#123abc", x := 0, y := 1, z := 0,
               rotationY := 0, state := PlayerState.idle, swingAttachPoint := none,
               lastUpdate := 1 } := by decide
  refine ⟨h0, ?_⟩
  obtain ⟨q, hq, hn, -, -, -, hc, -, -⟩ :=
    C3_updateSettings_validation _ "a" _ (some "Bob") (some "not-a-color") 2 h0
  exact ⟨q, hq, hn "Bob" rfl (by decide) (by decide), by
    rw [hc "not-a-color" rfl (by decide)]⟩

/-- C6 counterexample: the attach-point/swinging invariant claimed by the
spec fails on a reachable registry.  After `addPlayer`, `updateSwing`
with an attach point, and a `position` update carrying state `idle`, the
record keeps the stale attach point while its movement state is `idle`, and
the serialized `state` entry carries the same combination. -/
theorem C6_counterexample :
    mapGet ((((GameState.empty.addPlayer 0 "a" "Anna" 0).1.updateSwing "a" true
        (some ⟨5, 10, 5⟩) 1).updatePosition "a" 1 0 2 0 PlayerState.idle 2).players) "a" =
      some { id := "a", name := "Anna", color := "#ff4444", x := 1, y := 0, z := 2,
             rotationY := 0, state := PlayerState.idle,
             swingAttachPoint := some ⟨5, 10, 5⟩, lastUpdate := 2 } ∧
    (((GameState.empty.addPlayer 0 "a" "Anna" 0).1.updateSwing "a" true
        (some ⟨5, 10, 5⟩) 1).updatePosition "a" 1 0 2 0 PlayerState.idle
        2).getAllPlayerData =
      [{ id := "a", name := "Anna", color := "#ff4444", x := 1, y := 0, z := 2,
         rotationY := 0, state := PlayerState.idle,
         swingAttachPoint := some ⟨5, 10, 5⟩ }] ∧
    PlayerState.idle ≠ PlayerState.swinging := by decide

/-- C6 (amended): `updateSwing` itself keeps state and attach point in sync
(active sets `swinging` with exactly the supplied optional point, inactive
sets `idle` and clears the point), but `updatePosition` overwrites the
movement state while leaving `swingAttachPoint` untouched, so the
present-iff-swinging invariant is not maintained across position updates. -/
theorem C6_amended_swing_attach (g : GameState) (id : String) (p : PlayerRec)
    (x y z rotationY : ℚ) (st : PlayerState) (ap : Option Vector3) (now : ℕ)
    (h : mapGet g.players id = some p) :
    mapGet ((g.updateSwing id true ap now).players) id =
      some { p with state := PlayerState.swinging, swingAttachPoint := ap,
                    lastUpdate := now } ∧
    mapGet ((g.updateSwing id false ap now).players) id =
      some { p with state := PlayerState.idle, swingAttachPoint := none,
                    lastUpdate := now } ∧
    mapGet ((g.updatePosition id x y z rotationY st now).players) id =
      some { p with x := x, y := y, z := z, rotationY := rotationY,
                    state := st, lastUpdate := now } := by
  refine ⟨?_, ?_, ?_⟩ <;>
    simp [GameState.updateSwing, GameState.updatePosition, h, mapGet_mapUpdate_self]

/-- Witness for the amended C6, on a concrete one-record registry. -/
theorem C6_amended_swing_attach_witness :
    mapGet ((GameState.empty.addPlayer 0 "a" "Anna" 0).1.players) "a" =
      some { id := "a", name := "Anna", color := "#ff4444", x := 0, y := 1, z := 0,
             rotationY := 0, state := PlayerState.idle, swingAttachPoint := none,
             lastUpdate := 0 } ∧
    (mapGet (((GameState.empty.addPlayer 0 "a" "Anna" 0).1.updateSwing "a" true
        (some ⟨5, 10, 5⟩) 9).players) "a" =
      some { id := "a", name := "Anna", color := "#ff4444", x := 0, y := 1, z := 0,
             rotationY := 0, state := PlayerState.swinging,
             swingAttachPoint := some ⟨5, 10, 5⟩, lastUpdate := 9 } ∧
     mapGet (((GameState.empty.addPlayer 0 "a" "Anna" 0).1.updateSwing "a" false
        (some ⟨5, 10, 5⟩) 9).players) "a" =
      some { id := "a", name := "Anna", color := "#ff4444", x := 0, y := 1, z := 0,
             rotationY := 0, state := PlayerState.idle, swingAttachPoint := none,
             lastUpdate := 9 } ∧
     mapGet (((GameState.empty.addPlayer 0 "a" "Anna" 0).1.updatePosition "a" 1 2 3
        (1/2) PlayerState.running 9).players) "a" =
      some { id := "a", name := "Anna", color := "#ff4444", x := 1, y := 2, z := 3,
             rotationY := 1/2, state := PlayerState.running, swingAttachPoint := none,
             lastUpdate := 9 }) :=
  ⟨by decide, C6_amended_swing_attach (GameState.empty.addPlayer 0 "a" "Anna" 0).1 "a"
    { id := "a", name := "Anna", color := "#ff4444", x := 0, y := 1, z := 0,
      rotationY := 0, state := PlayerState.idle, swingAttachPoint := none,
      lastUpdate := 0 } 1 2 3 (1/2) PlayerState.running (some ⟨5, 10, 5⟩) 9 (by decide)⟩

/-- C9 counterexample: `addPlayer` on an identity already present does not
fail or no-op — it replaces the existing record (here: name `"Old"` at
position `(5,6,7)`) with a fresh default record (name `"New"`, spawn
`(0,1,0)`, state `idle`, new palette color). -/
theorem C9_counterexample :
    mapGet (((GameState.empty.addPlayer 0 "a" "Old" 0).1.updatePosition "a" 5 6 7 1
        PlayerState.walking 1).players) "a" =
      some { id := "a", name := "Old", color := "#ff4444", x := 5, y := 6, z := 7,
             rotationY := 1, state := PlayerState.walking, swingAttachPoint := none,
             lastUpdate := 1 } ∧
    mapGet ((((GameState.empty.addPlayer 0 "a" "Old" 0).1.updatePosition "a" 5 6 7 1
        PlayerState.walking 1).addPlayer 1 "a" "New" 2).1.players) "a" =
      some { id := "a", name := "New", color := "#44ff44", x := 0, y := 1, z := 0,
             rotationY := 0, state := PlayerState.idle, swingAttachPoint := none,
             lastUpdate := 2 } ∧
    ({ id := "a", name := "New", color := "#44ff44", x := 0, y := 1, z := 0,
       rotationY := 0, state := PlayerState.idle, swingAttachPoint := none,
       lastUpdate := 2 } : PlayerRec) ≠
      { id := "a", name := "Old", color := "#ff4444", x := 5, y := 6, z := 7,
        rotationY := 1, state := PlayerState.walking, swingAttachPoint := none,
        lastUpdate := 1 } := by decide

/-- C9 (amended): `addPlayer` always installs a fresh default record —
spawn `(0, 1, 0)`, yaw `0`, state `idle`, no attach point, a color from the
fixed palette — overwriting any existing record for that identity and
leaving every other record unchanged; the double-join protection lives one
layer up, in `handleJoin`, which ignores a `join` message from a session
that has already joined, so within the session protocol `addPlayer` is
never reached twice for the same identity. -/
theorem C9_amended_addPlayer (g : GameState) (rand : ℕ) (id name : String) (now : ℕ) :
    mapGet ((g.addPlayer rand id name now).1.players) id =
      some (g.addPlayer rand id name now).2 ∧
    (g.addPlayer rand id name now).2 =
      { id := id, name := name, color := generateRandomColor rand, x := 0, y := 1,
        z := 0, rotationY := 0, state := PlayerState.idle, swingAttachPoint := none,
        lastUpdate := now } ∧
    generateRandomColor rand ∈ colorPalette ∧
    (∀ id', id' ≠ id →
      mapGet ((g.addPlayer rand id name now).1.players) id' = mapGet g.players id') ∧
    (∀ (s : ServerState) (info : SessionInfo) (nm2 : String) (rand2 now2 : ℕ),
      mapGet s.sessions id = some info → info.joined = true →
      s.step (ServerEvent.message id (ClientMessage.join nm2) rand2 now2) = (s, [])) := by
  refine ⟨?_, rfl, generateRandomColor_mem rand, ?_, ?_⟩
  · simp [GameState.addPlayer, mapGet_mapSet_self]
  · intro id' hne
    simp [GameState.addPlayer, mapGet_mapSet_ne _ _ _ _ hne]
  · intro s info nm2 rand2 now2 hs hj
    simp [ServerState.step, hs, handleClientMessage, handleJoin, hj]

/-- Witness for the amended C9: adding `"b"` to a registry that already has
`"a"`, and a duplicate `join` from a joined session being ignored. -/
theorem C9_amended_addPlayer_witness :
    mapGet ((((GameState.empty.addPlayer 0 "a" "Anna" 0).1).addPlayer 3 "b" "Ben"
        1).1.players) "b" =
      some (((GameState.empty.addPlayer 0 "a" "Anna" 0).1).addPlayer 3 "b" "Ben" 1).2 ∧
    generateRandomColor 3 ∈ colorPalette ∧
    mapGet ((((GameState.empty.addPlayer 0 "a" "Anna" 0).1).addPlayer 3 "b" "Ben"
        1).1.players) "a" =
      mapGet ((GameState.empty.addPlayer 0 "a" "Anna" 0).1.players) "a" ∧
    (ServerState.run [ServerEvent.connect "b",
        ServerEvent.message "b" (ClientMessage.join "Ben") 3 1]).step
      (ServerEvent.message "b" (ClientMessage.join "again") 4 2) =
      (ServerState.run [ServerEvent.connect "b",
        ServerEvent.message "b" (ClientMessage.join "Ben") 3 1], []) := by
  obtain ⟨h1, -, h3, h4, h5⟩ :=
    C9_amended_addPlayer ((GameState.empty.addPlayer 0 "a" "Anna" 0).1) 3 "b" "Ben" 1
  refine ⟨h1, h3, h4 "a" (by decide), ?_⟩
  exact h5 _ { joined := true, wsOpen := true, name := "Ben" } "again" 4 2
    (by decide) rfl

/-- C5 counterexample: after the adapter receives `server_full` its status
is `full` with no reconnect pending, but when the server then closes the
socket the generic `onclose` handler runs: the status drops to
`disconnected` and an automatic reconnect timer is armed — contradicting
the claim that no reconnect is ever scheduled after `server_full`. -/
theorem C5_counterexample :
    ((Connection.start.connect.onOpen).handleServerMessage
        ServerMessage.server_full).status = ConnectionStatus.full ∧
    ((Connection.start.connect.onOpen).handleServerMessage
        ServerMessage.server_full).reconnectTimer = false ∧
    (((Connection.start.connect.onOpen).handleServerMessage
        ServerMessage.server_full).onClose).reconnectTimer = true ∧
    (((Connection.start.connect.onOpen).handleServerMessage
        ServerMessage.server_full).onClose).status = ConnectionStatus.disconnected := by
  decide

/-- C5 (amended): receiving `server_full` sets the status to `full` and the
`server_full` handler itself never arms the reconnect timer; but `full` is
not terminal — the subsequent socket close runs the ordinary `onclose`
path, which moves the status to `disconnected` and always leaves a
reconnect scheduled, exactly as for any other disconnect.  Only an explicit
`disconnect()` clears the pending timer. -/
theorem C5_amended_server_full (c : Connection) :
    (c.handleServerMessage ServerMessage.server_full).status = ConnectionStatus.full ∧
    (c.handleServerMessage ServerMessage.server_full).reconnectTimer =
      c.reconnectTimer ∧
    ((c.handleServerMessage ServerMessage.server_full).onClose).status =
      ConnectionStatus.disconnected ∧
    ((c.handleServerMessage ServerMessage.server_full).onClose).reconnectTimer = true ∧
    (c.disconnect).reconnectTimer = false := by
  obtain ⟨we, wr, st, rt, mid⟩ := c
  cases rt <;>
    simp [Connection.handleServerMessage, Connection.setStatus, Connection.onClose,
      Connection.scheduleReconnect, Connection.disconnect]

/-! ## Registry-size invariant (claim C1) -/

theorem length_updatePosition_players (g : GameState) (id : String)
    (x y z rotationY : ℚ) (st : PlayerState) (now : ℕ) :
    (g.updatePosition id x y z rotationY st now).players.length = g.players.length := by
  cases h : mapGet g.players id <;>
    simp [GameState.updatePosition, h, length_mapUpdate]

theorem length_updateSwing_players (g : GameState) (id : String)
    (active : Bool) (ap : Option Vector3) (now : ℕ) :
    (g.updateSwing id active ap now).players.length = g.players.length := by
  cases h : mapGet g.players id <;>
    simp [GameState.updateSwing, h, length_mapUpdate]

/-- One server event can never push the registry above `MAX_PLAYERS`:
`addPlayer` only runs behind the `canJoin` guard in `handleJoin`. -/
theorem step_preserves_capacity (s : ServerState) (e : ServerEvent)
    (h : s.gameState.players.length ≤ MAX_PLAYERS) :
    ((s.step e).1).gameState.players.length ≤ MAX_PLAYERS := by
  cases e with
  | connect sid => simpa [ServerState.step] using h
  | message sid m rand now =>
    cases hs : mapGet s.sessions sid with
    | none => simpa [ServerState.step, hs] using h
    | some info =>
      cases m with
      | join name =>
        by_cases hj : info.joined = true
        · simpa [ServerState.step, hs, handleClientMessage, handleJoin, hj] using h
        · by_cases hc : s.gameState.canJoin = false
          · simpa [ServerState.step, hs, handleClientMessage, handleJoin, hj, hc]
              using h
          · have hc' : s.gameState.canJoin = true := by
              cases hcj : s.gameState.canJoin with
              | false => exact absurd hcj hc
              | true => rfl
            have hlt : s.gameState.players.length < MAX_PLAYERS := by
              simpa [GameState.canJoin, decide_eq_true_eq] using hc'
            simp [ServerState.step, hs, handleClientMessage, handleJoin, hj, hc,
              GameState.addPlayer]
            exact le_trans (length_mapSet_le _ _ _) (by omega)
      | position x y z rotationY st =>
        by_cases hj : info.joined = true <;>
          simpa [ServerState.step, hs, handleClientMessage, hj,
            length_updatePosition_players] using h
      | swing active ap =>
        by_cases hj : info.joined = true <;>
          simpa [ServerState.step, hs, handleClientMessage, hj,
            length_updateSwing_players] using h
      | settings nm co =>
        simpa [ServerState.step, hs, handleClientMessage] using h
      | rtc_offer tid offer =>
        simpa [ServerState.step, hs, handleClientMessage] using h
      | rtc_answer tid answer =>
        simpa [ServerState.step, hs, handleClientMessage] using h
      | rtc_ice tid candidate =>
        simpa [ServerState.step, hs, handleClientMessage] using h
  | close sid =>
    cases hs : mapGet s.sessions sid with
    | none => simpa [ServerState.step, hs] using h
    | some info =>
      by_cases hj : info.joined = true
      · simp [ServerState.step, hs, hj, GameState.removePlayer]
        exact le_trans (length_mapDelete_le _ _) h
      · simpa [ServerState.step, hs, hj] using h

theorem run_from_preserves_capacity (es : List ServerEvent) (s : ServerState)
    (h : s.gameState.players.length ≤ MAX_PLAYERS) :
    (es.foldl (fun s e => (s.step e).1) s).gameState.players.length ≤ MAX_PLAYERS := by
  induction es generalizing s with
  | nil => simpa using h
  | cons e tl ih => exact ih _ (step_preserves_capacity s e h)

/-- C1 counterexample: a reachable server state whose registry holds 5
records, on which a further `join` request (from the already-joined open
connection `"a"`) produces no `server_full` message, closes nothing, and
changes nothing — the claim's unconditional "causes a `server_full` message
to be sent to that connection and the connection to be closed" is false for
such a join request. -/
theorem C1_counterexample :
    (ServerState.run fullServerTrace).gameState.players.length = 5 ∧
    ((ServerState.run fullServerTrace).step
        (ServerEvent.message "a" (ClientMessage.join "again") 5 9)).2 = [] ∧
    ((ServerState.run fullServerTrace).step
        (ServerEvent.message "a" (ClientMessage.join "again") 5 9)).1 =
      ServerState.run fullServerTrace ∧
    mapGet (ServerState.run fullServerTrace).sessions "a" =
      some { joined := true, wsOpen := true, name := "A" } := by
  decide

/-- C1 (amended): for every event sequence the registry never holds more
than `MAX_PLAYERS = 5` records; and a join request arriving on an *open,
not-yet-joined* connection while the registry holds 5 records sends exactly
one `server_full` message to that connection, closes it, and leaves the
registry completely unmutated.  (A duplicate join from an already-joined
connection is instead ignored outright: no message, no close, no mutation —
see the counterexample.) -/
theorem C1_amended_capacity (es : List ServerEvent) :
    (ServerState.run es).gameState.players.length ≤ MAX_PLAYERS ∧
    (∀ (sid name : String) (rand now : ℕ) (info : SessionInfo),
      mapGet (ServerState.run es).sessions sid = some info →
      info.joined = false → info.wsOpen = true →
      (ServerState.run es).gameState.players.length = MAX_PLAYERS →
      ((ServerState.run es).step
          (ServerEvent.message sid (ClientMessage.join name) rand now)).1.gameState =
        (ServerState.run es).gameState ∧
      ((ServerState.run es).step
          (ServerEvent.message sid (ClientMessage.join name) rand now)).2 =
        [(sid, ServerMessage.server_full)] ∧
      mapGet ((ServerState.run es).step
          (ServerEvent.message sid (ClientMessage.join name) rand now)).1.sessions sid =
        some { info with wsOpen := false }) := by
  constructor
  · exact run_from_preserves_capacity es ServerState.start
      (by simp [ServerState.start, GameState.empty])
  · intro sid name rand now info hs hnj hw hfull
    have hcj : (ServerState.run es).gameState.canJoin = false := by
      simp [GameState.canJoin, hfull]
    refine ⟨?_, ?_, ?_⟩ <;>
      simp [ServerState.step, hs, handleClientMessage, handleJoin, hnj, hcj,
        sessionSend, hw, mapGet_mapSet_self]

/-- Witness for the amended C1: five joined sessions plus the open,
not-yet-joined session `"f"`; its join attempt is refused with
`server_full`, its socket is closed, and the registry stays as it was. -/
theorem C1_amended_capacity_witness :
    (ServerState.run fullServerTraceF).gameState.players.length ≤ MAX_PLAYERS ∧
    (mapGet (ServerState.run fullServerTraceF).sessions "f" =
        some { joined := false, wsOpen := true, name := "Player" } ∧
     (ServerState.run fullServerTraceF).gameState.players.length = MAX_PLAYERS) ∧
    (((ServerState.run fullServerTraceF).step
        (ServerEvent.message "f" (ClientMessage.join "Fay") 5 9)).1.gameState =
      (ServerState.run fullServerTraceF).gameState ∧
     ((ServerState.run fullServerTraceF).step
        (ServerEvent.message "f" (ClientMessage.join "Fay") 5 9)).2 =
      [("f", ServerMessage.server_full)] ∧
     mapGet ((ServerState.run fullServerTraceF).step
        (ServerEvent.message "f" (ClientMessage.join "Fay") 5 9)).1.sessions "f" =
      some { joined := false, wsOpen := false, name := "Player" }) := by
  obtain ⟨h1, h2⟩ := C1_amended_capacity fullServerTraceF
  refine ⟨h1, ⟨by decide, by decide⟩, ?_⟩
  have h3 := h2 "f" "Fay" 5 9 { joined := false, wsOpen := true, name := "Player" }
    (by decide) rfl rfl (by decide)
  simpa using h3

/-! ## Broadcast tick (claim C2) -/

/-- When every joined session has an open socket, the tick's sends are
exactly one copy of the message per joined session, in session order. -/
theorem broadcastTickSends_eq_filter (sessions : List (String × SessionInfo))
    (m : ServerMessage)
    (hopen : ∀ p ∈ sessions, p.2.joined = true → p.2.wsOpen = true) :
    broadcastTickSends sessions m =
      (sessions.filter (fun p => p.2.joined)).map (fun p => (p.1, m)) := by
  induction sessions with
  | nil => rfl
  | cons hd tl ih =>
    have hopen' : ∀ p ∈ tl, p.2.joined = true → p.2.wsOpen = true :=
      fun p hp => hopen p (List.mem_cons_of_mem _ hp)
    obtain ⟨sid, info⟩ := hd
    cases hj : info.joined with
    | true =>
      have hw : info.wsOpen = true := hopen (sid, info) (List.mem_cons_self _ _) hj
      simp [broadcastTickSends, sessionSend, hj, hw, List.filter_cons, ih hopen']
    | false =>
      simp [broadcastTickSends, hj, List.filter_cons, ih hopen']

/-- No tick message is addressed to a key that is not in the session map. -/
theorem msgs_filter_key_nil (sessions : List (String × SessionInfo))
    (m : ServerMessage) (sid : String) (h : sid ∉ sessions.map Prod.fst) :
    ((sessions.filter (fun p => p.2.joined)).map (fun p => (p.1, m))).filter
      (fun q => q.1 == sid) = [] := by
  induction sessions with
  | nil => rfl
  | cons hd tl ih =>
    obtain ⟨k, i⟩ := hd
    have hk : ¬ k = sid := by
      intro hEq
      exact h (by simp [hEq])
    have h' : sid ∉ tl.map Prod.fst := fun hm => h (List.mem_cons_of_mem _ hm)
    cases hj : i.joined <;> simp [List.filter_cons, hj, hk, ih h']

/-- With distinct session ids, the tick sends exactly one message to a
joined session and none to a non-joined one. -/
theorem count_msgs_key (sessions : List (String × SessionInfo)) (m : ServerMessage)
    (sid : String) (info : SessionInfo)
    (hnd : (sessions.map Prod.fst).Nodup) (hmem : (sid, info) ∈ sessions) :
    (((sessions.filter (fun p => p.2.joined)).map (fun p => (p.1, m))).filter
        (fun q => q.1 == sid)).length = if info.joined = true then 1 else 0 := by
  induction sessions with
  | nil => cases hmem
  | cons hd tl ih =>
    obtain ⟨k, i⟩ := hd
    rw [List.map_cons, List.nodup_cons] at hnd
    obtain ⟨hknotin, hnd'⟩ := hnd
    rcases List.mem_cons.mp hmem with heq | hmem'
    · cases heq
      have hrest := msgs_filter_key_nil tl m sid hknotin
      cases hj : info.joined <;> simp [List.filter_cons, hj, hrest]
    · have hsid_in : sid ∈ tl.map Prod.fst :=
        List.mem_map.mpr ⟨(sid, info), hmem', rfl⟩
      have hk : ¬ k = sid := fun hEq => hknotin (hEq ▸ hsid_in)
      have hrec := ih hnd' hmem'
      cases hj : i.joined <;> simp [List.filter_cons, hj, hk, hrec]

/-- C2: on one broadcast tick, if no session is joined nothing is sent; if
some are joined, each joined session receives exactly one `state` message,
non-joined sessions receive none, and every message sent carries the same
single snapshot `getAllPlayerData` of the registry. -/
theorem C2_broadcast_tick (sessions : List (String × SessionInfo)) (g : GameState)
    (hnd : (sessions.map Prod.fst).Nodup)
    (hopen : ∀ p ∈ sessions, p.2.joined = true → p.2.wsOpen = true) :
    ((∀ p ∈ sessions, p.2.joined = false) → broadcastTick sessions g = []) ∧
    (∀ sid info, (sid, info) ∈ sessions →
      ((broadcastTick sessions g).filter (fun q => q.1 == sid)).length =
        if info.joined = true then 1 else 0) ∧
    (∀ q ∈ broadcastTick sessions g, q.2 = ServerMessage.state g.getAllPlayerData) := by
  cases sessions with
  | nil => simp [broadcastTick]
  | cons hd tl =>
    have hbt : broadcastTick (hd :: tl) g =
        ((hd :: tl).filter (fun p => p.2.joined)).map
          (fun p => (p.1, ServerMessage.state g.getAllPlayerData)) := by
      rw [broadcastTick, if_neg (by simp)]
      exact broadcastTickSends_eq_filter _ _ hopen
    refine ⟨?_, ?_, ?_⟩
    · intro hall
      rw [hbt]
      have hfil : (hd :: tl).filter (fun p => p.2.joined) = [] := by
        apply List.filter_eq_nil_iff.mpr
        intro a ha
        simp [hall a ha]
      simp [hfil]
    · intro sid info hmem
      rw [hbt]
      exact count_msgs_key _ _ _ _ hnd hmem
    · intro q hq
      rw [hbt] at hq
      obtain ⟨p, hp, rfl⟩ := List.mem_map.mp hq
      rfl

/-- Witness for C2: one joined session `"a"`, one connected-but-not-joined
session `"b"`, over a one-record registry. -/
theorem C2_broadcast_tick_witness :
    (([("a", ({ joined := true, wsOpen := true, name := "A" } : SessionInfo)),
       ("b", ({ joined := false, wsOpen := true, name := "Player" } : SessionInfo))].map
        Prod.fst).Nodup) ∧
    ((∀ p ∈ [("a", ({ joined := true, wsOpen := true, name := "A" } : SessionInfo)),
       ("b", ({ joined := false, wsOpen := true, name := "Player" } : SessionInfo))],
        p.2.joined = true → p.2.wsOpen = true)) ∧
    (((∀ p ∈ [("a", ({ joined := true, wsOpen := true, name := "A" } : SessionInfo)),
        ("b", ({ joined := false, wsOpen := true, name := "Player" } : SessionInfo))],
        p.2.joined = false) →
      broadcastTick
        [("a", { joined := true, wsOpen := true, name := "A" }),
         ("b", { joined := false, wsOpen := true, name := "Player" })]
        (GameState.empty.addPlayer 0 "a" "A" 0).1 = []) ∧
    (∀ sid info,
      (sid, info) ∈ [("a", ({ joined := true, wsOpen := true, name := "A" } : SessionInfo)),
        ("b", ({ joined := false, wsOpen := true, name := "Player" } : SessionInfo))] →
      ((broadcastTick
          [("a", { joined := true, wsOpen := true, name := "A" }),
           ("b", { joined := false, wsOpen := true, name := "Player" })]
          (GameState.empty.addPlayer 0 "a" "A" 0).1).filter
            (fun q => q.1 == sid)).length =
        if info.joined = true then 1 else 0) ∧
    (∀ q ∈ broadcastTick
        [("a", { joined := true, wsOpen := true, name := "A" }),
         ("b", { joined := false, wsOpen := true, name := "Player" })]
        (GameState.empty.addPlayer 0 "a" "A" 0).1,
      q.2 = ServerMessage.state (GameState.empty.addPlayer 0 "a" "A" 0).1.getAllPlayerData)) :=
  ⟨by decide, by decide,
    C2_broadcast_tick
      [("a", { joined := true, wsOpen := true, name := "A" }),
       ("b", { joined := false, wsOpen := true, name := "Player" })]
      (GameState.empty.addPlayer 0 "a" "A" 0).1 (by decide) (by decide)⟩

/-! ## Signaling relay (claim C8) -/

/-- C8: a signaling message (`rtc_offer`, `rtc_answer`, `rtc_ice`) naming a
joined target session is delivered to that target as the same kind of
message with the same opaque payload, re-tagged with the sender's identity
as `fromId`; a message naming an absent or non-joined target is silently
dropped — nothing is delivered and no error is sent back to the sender. -/
theorem C8_signaling_relay (sessions : List (String × SessionInfo))
    (senderId targetId : String) (offerP answerP iceP : String) (info : SessionInfo)
    (hmem : mapGet sessions targetId = some info)
    (hj : info.joined = true) (hw : info.wsOpen = true) :
    relaySignaling sessions senderId (ClientMessage.rtc_offer targetId offerP) =
      [(targetId, ServerMessage.rtc_offer_relay senderId offerP)] ∧
    relaySignaling sessions senderId (ClientMessage.rtc_answer targetId answerP) =
      [(targetId, ServerMessage.rtc_answer_relay senderId answerP)] ∧
    relaySignaling sessions senderId (ClientMessage.rtc_ice targetId iceP) =
      [(targetId, ServerMessage.rtc_ice_relay senderId iceP)] ∧
    (∀ tid, mapGet sessions tid = none →
      relaySignaling sessions senderId (ClientMessage.rtc_offer tid offerP) = [] ∧
      relaySignaling sessions senderId (ClientMessage.rtc_answer tid answerP) = [] ∧
      relaySignaling sessions senderId (ClientMessage.rtc_ice tid iceP) = []) ∧
    (∀ tid info2, mapGet sessions tid = some info2 → info2.joined = false →
      relaySignaling sessions senderId (ClientMessage.rtc_offer tid offerP) = [] ∧
      relaySignaling sessions senderId (ClientMessage.rtc_answer tid answerP) = [] ∧
      relaySignaling sessions senderId (ClientMessage.rtc_ice tid iceP) = []) := by
  refine ⟨?_, ?_, ?_, ?_, ?_⟩
  · simp [relaySignaling, hmem, hj, sessionSend, hw]
  · simp [relaySignaling, hmem, hj, sessionSend, hw]
  · simp [relaySignaling, hmem, hj, sessionSend, hw]
  · intro tid hnone
    refine ⟨?_, ?_, ?_⟩ <;> simp [relaySignaling, hnone]
  · intro tid info2 hsome hnj
    refine ⟨?_, ?_, ?_⟩ <;> simp [relaySignaling, hsome, hnj]

/-- Witness for C8: target `"t"` is joined, `"u"` is connected but not
joined, `"x"` is absent. -/
theorem C8_signaling_relay_witness :
    mapGet [("t", ({ joined := true, wsOpen := true, name := "T" } : SessionInfo)),
            ("u", ({ joined := false, wsOpen := true, name := "U" } : SessionInfo))] "t" =
      some { joined := true, wsOpen := true, name := "T" } ∧
    relaySignaling
      [("t", { joined := true, wsOpen := true, name := "T" }),
       ("u", { joined := false, wsOpen := true, name := "U" })] "s"
      (ClientMessage.rtc_offer "t" "offer-payload") =
      [("t", ServerMessage.rtc_offer_relay "s" "offer-payload")] ∧
    relaySignaling
      [("t", { joined := true, wsOpen := true, name := "T" }),
       ("u", { joined := false, wsOpen := true, name := "U" })] "s"
      (ClientMessage.rtc_answer "t" "answer-payload") =
      [("t", ServerMessage.rtc_answer_relay "s" "answer-payload")] ∧
    relaySignaling
      [("t", { joined := true, wsOpen := true, name := "T" }),
       ("u", { joined := false, wsOpen := true, name := "U" })] "s"
      (ClientMessage.rtc_ice "t" "ice-payload") =
      [("t", ServerMessage.rtc_ice_relay "s" "ice-payload")] ∧
    relaySignaling
      [("t", { joined := true, wsOpen := true, name := "T" }),
       ("u", { joined := false, wsOpen := true, name := "U" })] "s"
      (ClientMessage.rtc_offer "u" "offer-payload") = [] ∧
    relaySignaling
      [("t", { joined := true, wsOpen := true, name := "T" }),
       ("u", { joined := false, wsOpen := true, name := "U" })] "s"
      (ClientMessage.rtc_offer "x" "offer-payload") = [] := by
  obtain ⟨h1, h2, h3, h4, h5⟩ :=
    C8_signaling_relay
      [("t", { joined := true, wsOpen := true, name := "T" }),
       ("u", { joined := false, wsOpen := true, name := "U" })]
      "s" "t" "offer-payload" "answer-payload" "ice-payload"
      { joined := true, wsOpen := true, name := "T" } (by decide) rfl rfl
  exact ⟨by decide, h1, h2, h3,
    (h5 "u" { joined := false, wsOpen := true, name := "U" } (by decide) rfl).1,
    (h4 "x" (by decide)).1⟩

/-! ## Remote-player interpolation (claims C7 and C10) -/

/-- Away from an exact angular opposition (`d = -pi`), the code's wrap and
the spec's `(-pi, pi]` normalization coincide. -/
theorem wrapDeltaY_eq_spec (d : ℝ) (hne : d ≠ -Real.pi) :
    wrapDeltaY d = specWrapToIocPi d := by
  unfold wrapDeltaY specWrapToIocPi
  by_cases h1 : d > Real.pi
  · simp [h1]
  · by_cases h2 : d < -Real.pi
    · have h2' : d ≤ -Real.pi := le_of_lt h2
      simp [h1, h2, h2']
    · have h2' : ¬ d ≤ -Real.pi := by
        intro hle
        rcases lt_or_eq_of_le hle with hlt | heq
        · exact h2 hlt
        · exact hne heq
      simp [h1, h2, h2']

/-- The wrapped angular difference of two angles in `[-pi, pi]` never
exceeds `pi` in magnitude — the move is along the shorter direction. -/
theorem abs_wrapDeltaY_le_pi (d : ℝ) (hlo : -(2 * Real.pi) ≤ d)
    (hhi : d ≤ 2 * Real.pi) : |wrapDeltaY d| ≤ Real.pi := by
  have hpi := Real.pi_pos
  unfold wrapDeltaY
  split_ifs with ha hb
  · rw [abs_le]
    constructor <;> linarith
  · rw [abs_le]
    constructor <;> linarith
  · rw [abs_le]
    exact ⟨not_lt.mp hb, not_lt.mp ha⟩

/-- C7 counterexample: at current yaw `pi/2`, target yaw `-pi/2` (both in
`[-pi, pi]`) and frame time `1/20`, the raw difference is exactly `-pi`;
the code keeps `-pi` (moving clockwise to yaw `0`), while the claimed
`(-pi, pi]` normalization gives `+pi` (moving counter-clockwise to yaw
`pi`) — and `0` is not `pi`. -/
theorem C7_counterexample :
    -Real.pi ≤ Real.pi / 2 ∧ Real.pi / 2 ≤ Real.pi ∧
    -Real.pi ≤ -(Real.pi / 2) ∧ -(Real.pi / 2) ≤ Real.pi ∧
    (0 : ℝ) ≤ 1 / 20 ∧
    RemotePlayer.updateRotationY (Real.pi / 2) (-(Real.pi / 2)) (1 / 20) = 0 ∧
    Real.pi / 2 +
        specWrapToIocPi (-(Real.pi / 2) - Real.pi / 2) * min 1 (10 * (1 / 20)) =
      Real.pi ∧
    (0 : ℝ) ≠ Real.pi := by
  have hpi := Real.pi_pos
  have hd : -(Real.pi / 2) - Real.pi / 2 = -Real.pi := by ring
  have hwrap : wrapDeltaY (-Real.pi) = -Real.pi := by
    unfold wrapDeltaY
    rw [if_neg (by linarith), if_neg (lt_irrefl _)]
  have hspec : specWrapToIocPi (-Real.pi) = Real.pi := by
    unfold specWrapToIocPi
    rw [if_neg (by linarith), if_pos (le_refl _)]
    ring
  have hmin : min (1 : ℝ) (10 * (1 / 20)) = 1 / 2 := by norm_num
  refine ⟨by linarith, by linarith, by linarith, by linarith, by norm_num, ?_, ?_, ?_⟩
  · unfold RemotePlayer.updateRotationY lerpFactor LERP_SPEED
    rw [hd, hwrap, hmin]
    ring
  · rw [hd, hspec, hmin]
    ring
  · exact Ne.symm Real.pi_ne_zero

/-- C7 (amended): for current and target yaw in `[-pi, pi]` and frame time
at least zero, whenever the raw difference is not exactly `-pi` the update
changes the yaw by the difference normalized into `(-pi, pi]` scaled by
`min 1 (10 * dt)`, and the wrapped move never exceeds `pi` in magnitude (the
shorter angular direction).  At the exact-opposition tie `t - c = -pi` the
code instead keeps `-pi` (see the counterexample), which has the same
angular magnitude in the opposite direction. -/
theorem C7_amended_yaw_interpolation (c t dt : ℝ)
    (hc1 : -Real.pi ≤ c) (hc2 : c ≤ Real.pi)
    (ht1 : -Real.pi ≤ t) (ht2 : t ≤ Real.pi)
    (hdt : 0 ≤ dt) (hne : t - c ≠ -Real.pi) :
    RemotePlayer.updateRotationY c t dt =
      c + specWrapToIocPi (t - c) * min 1 (10 * dt) ∧
    |wrapDeltaY (t - c)| ≤ Real.pi := by
  constructor
  · rw [RemotePlayer.updateRotationY, wrapDeltaY_eq_spec _ hne]
    simp [lerpFactor, LERP_SPEED]
  · exact abs_wrapDeltaY_le_pi _ (by linarith) (by linarith)

/-- Witness for the amended C7: the spec's own example — current yaw `3.1`,
target yaw `-3.1`, frame time `1/100`. -/
theorem C7_amended_yaw_interpolation_witness :
    (-Real.pi ≤ (3.1 : ℝ) ∧ (3.1 : ℝ) ≤ Real.pi ∧
     -Real.pi ≤ (-3.1 : ℝ) ∧ (-3.1 : ℝ) ≤ Real.pi ∧
     (0 : ℝ) ≤ 1 / 100 ∧ (-3.1 : ℝ) - 3.1 ≠ -Real.pi) ∧
    (RemotePlayer.updateRotationY 3.1 (-3.1) (1 / 100) =
        3.1 + specWrapToIocPi ((-3.1 : ℝ) - 3.1) * min 1 (10 * (1 / 100)) ∧
     |wrapDeltaY ((-3.1 : ℝ) - 3.1)| ≤ Real.pi) := by
  have h314 := Real.pi_gt_d2
  have h315 := Real.pi_lt_d2
  have h1 : -Real.pi ≤ (3.1 : ℝ) := by linarith
  have h2 : (3.1 : ℝ) ≤ Real.pi := by linarith
  have h3 : -Real.pi ≤ (-3.1 : ℝ) := by linarith
  have h4 : (-3.1 : ℝ) ≤ Real.pi := by linarith
  have h5 : (0 : ℝ) ≤ 1 / 100 := by norm_num
  have h6 : (-3.1 : ℝ) - 3.1 ≠ -Real.pi := by
    intro h
    have : Real.pi = 6.2 := by linarith
    linarith
  exact ⟨⟨h1, h2, h3, h4, h5, h6⟩,
    C7_amended_yaw_interpolation 3.1 (-3.1) (1 / 100) h1 h2 h3 h4 h5 h6⟩

/-- Linear interpolation with a factor in `[0, 1]` stays between the two
endpoints, coordinatewise. -/
theorem lerp_coord_between (u v a : ℝ) (h0 : 0 ≤ a) (h1 : a ≤ 1) :
    min u v ≤ u + (v - u) * a ∧ u + (v - u) * a ≤ max u v := by
  rcases le_total u v with huv | huv
  · rw [min_eq_left huv, max_eq_right huv]
    constructor <;> nlinarith
  · rw [min_eq_right huv, max_eq_left huv]
    constructor <;> nlinarith

/-- C10: for every frame time `dt` at least zero — including values far
larger than the nominal frame interval — one `RemotePlayer.update` never
overshoots: the interpolation factor `min 1 (LERP_SPEED * dt)` is clamped
into `[0, 1]`, the new displayed position is the interpolation of the
previous position toward the target by that factor (hence lies, in each
coordinate, between the previous and the target position), and the yaw
moves by at most the full wrapped angular difference. -/
theorem C10_no_overshoot (p t : Vec3R) (c ty dt : ℝ) (hdt : 0 ≤ dt) :
    (0 ≤ lerpFactor dt ∧ lerpFactor dt ≤ 1) ∧
    RemotePlayer.updateMeshPosition p t dt = lerpVec p t (lerpFactor dt) ∧
    (min p.x t.x ≤ (RemotePlayer.updateMeshPosition p t dt).x ∧
     (RemotePlayer.updateMeshPosition p t dt).x ≤ max p.x t.x) ∧
    (min p.y t.y ≤ (RemotePlayer.updateMeshPosition p t dt).y ∧
     (RemotePlayer.updateMeshPosition p t dt).y ≤ max p.y t.y) ∧
    (min p.z t.z ≤ (RemotePlayer.updateMeshPosition p t dt).z ∧
     (RemotePlayer.updateMeshPosition p t dt).z ≤ max p.z t.z) ∧
    |RemotePlayer.updateRotationY c ty dt - c| ≤ |wrapDeltaY (ty - c)| := by
  have hs : (0 : ℝ) ≤ LERP_SPEED := by norm_num [LERP_SPEED]
  have h0 : 0 ≤ lerpFactor dt := by
    rw [lerpFactor]
    exact le_min (by norm_num) (mul_nonneg hs hdt)
  have h1 : lerpFactor dt ≤ 1 := min_le_left _ _
  refine ⟨⟨h0, h1⟩, rfl, ?_, ?_, ?_, ?_⟩
  · exact lerp_coord_between p.x t.x (lerpFactor dt) h0 h1
  · exact lerp_coord_between p.y t.y (lerpFactor dt) h0 h1
  · exact lerp_coord_between p.z t.z (lerpFactor dt) h0 h1
  · rw [RemotePlayer.updateRotationY]
    have heq : c + wrapDeltaY (ty - c) * lerpFactor dt - c =
        wrapDeltaY (ty - c) * lerpFactor dt := by ring
    rw [heq, abs_mul, abs_of_nonneg h0]
    exact mul_le_of_le_one_right (abs_nonneg _) h1

/-- Witness for C10: previous position at the origin, target `(1, 2, 3)`,
and the oversized frame time `dt = 1` (factor clamps to `1`). -/
theorem C10_no_overshoot_witness :
    (0 : ℝ) ≤ 1 ∧
    ((0 ≤ lerpFactor 1 ∧ lerpFactor 1 ≤ 1) ∧
     RemotePlayer.updateMeshPosition ⟨0, 0, 0⟩ ⟨1, 2, 3⟩ 1 =
       lerpVec ⟨0, 0, 0⟩ ⟨1, 2, 3⟩ (lerpFactor 1) ∧
     (min (0 : ℝ) 1 ≤ (RemotePlayer.updateMeshPosition ⟨0, 0, 0⟩ ⟨1, 2, 3⟩ 1).x ∧
      (RemotePlayer.updateMeshPosition ⟨0, 0, 0⟩ ⟨1, 2, 3⟩ 1).x ≤ max (0 : ℝ) 1) ∧
     (min (0 : ℝ) 2 ≤ (RemotePlayer.updateMeshPosition ⟨0, 0, 0⟩ ⟨1, 2, 3⟩ 1).y ∧
      (RemotePlayer.updateMeshPosition ⟨0, 0, 0⟩ ⟨1, 2, 3⟩ 1).y ≤ max (0 : ℝ) 2) ∧
     (min (0 : ℝ) 3 ≤ (RemotePlayer.updateMeshPosition ⟨0, 0, 0⟩ ⟨1, 2, 3⟩ 1).z ∧
      (RemotePlayer.updateMeshPosition ⟨0, 0, 0⟩ ⟨1, 2, 3⟩ 1).z ≤ max (0 : ℝ) 3) ∧
     |RemotePlayer.updateRotationY 0 1 1 - 0| ≤ |wrapDeltaY (1 - 0)|) :=
  ⟨by norm_num, C10_no_overshoot ⟨0, 0, 0⟩ ⟨1, 2, 3⟩ 0 1 1 (by norm_num)⟩

end KidsGame
